import Mathlib

/-!
# Verification of the markchap numbering core

A shallow embedding of the chapter/figure numbering core of the `markchap`
repository (files `markchap.py` and `markchap_refactored.py`; the two files
implement the same numbering algorithms, the refactored file only splits them
into smaller methods and adds record validation).  Python's in-place mutation
of the `Heading`/`Figure` records and of the shared `NumberState` is embedded
as explicit state passing: each operation takes the state and returns the
updated state together with the updated records.

Python integers that remain non-negative throughout (levels, counters, line
numbers) are embedded as `Nat`; the one place where the source validates an
arbitrary Python `int` (`Heading.__post_init__`) takes an `Int`.
-/

namespace Markchap

/-- `Heading` dataclass of `markchap.py` / `markchap_refactored.py`:
level, display text, raw text, token index, line number, exclusion flag and
the assigned dotted number (default `""`, meaning unset). -/
structure Heading where
  level : Nat
  text : String
  raw_text : String
  token_index : Nat
  line_number : Nat
  is_excluded : Bool
  number : String
  deriving DecidableEq, Repr

/-- `Figure` dataclass: kind tag (`"figure"` or `"table"` in the source),
original text, caption, token index, line number, assigned scope number
(`chapter_number`, default `""` = unset) and assigned sequence number
(`figure_number`, default `0` = unset). -/
structure Figure where
  type : String
  original_text : String
  caption : String
  token_index : Nat
  line_number : Nat
  chapter_number : String
  figure_number : Nat
  deriving DecidableEq, Repr

/-- `NumberState` dataclass: the counters list `current_numbers` plus the
per-kind figure/table counters and the (unused) global file counter. -/
structure NumberState where
  current_numbers : List Nat
  figure_count : Nat
  table_count : Nat
  global_file_count : Nat
  deriving DecidableEq, Repr

/-- The state a fresh `NumberingManager` starts with:
`NumberState(current_numbers=[])` with all counts at their defaults. -/
def initState : NumberState :=
  { current_numbers := [], figure_count := 0, table_count := 0,
    global_file_count := 0 }

/-- Python's `'.'.join(parts)`: concatenate the strings with `"."` between
consecutive elements. -/
def joinDot : List String → String
  | [] => ""
  | [s] => s
  | s :: rest => s ++ "." ++ joinDot rest

/-- `NumberingManager._adjust_number_list` (refactored) = the first two
branches of the loop body of `process_headings` (original): extend
`current_numbers` with zeros when it is shorter than `level`, truncate it
when it is longer. -/
def adjustNumberList (numbers : List Nat) (level : Nat) : List Nat :=
  if numbers.length < level then
    numbers ++ List.replicate (level - numbers.length) 0
  else if numbers.length > level then
    numbers.take level
  else
    numbers

/-- `NumberingManager._reset_deeper_levels`: `for i in range(level, len): set 0`,
i.e. every entry at index `≥ level` becomes `0`. -/
def resetDeeperLevels (numbers : List Nat) (level : Nat) : List Nat :=
  numbers.take level ++ List.replicate (numbers.length - level) 0

/-- `NumberingManager._generate_number_string`:
`'.'.join(str(num) for num in current_numbers[:level] if num > 0)`. -/
def generateNumberString (numbers : List Nat) (level : Nat) : String :=
  joinDot (((numbers.take level).filter (fun n => 0 < n)).map Nat.repr)

/-- `NumberingManager._assign_chapter_number` (= the per-heading body of
`process_headings` in the original file): adjust the counters list to the
heading's level, increment the entry at `level - 1`, reset deeper entries,
and render the heading's dotted number. -/
def assignChapterNumber (state : NumberState) (h : Heading) :
    NumberState × Heading :=
  let ns := adjustNumberList state.current_numbers h.level
  let ns := ns.set (h.level - 1) (ns.getD (h.level - 1) 0 + 1)
  let ns := resetDeeperLevels ns h.level
  ({ state with current_numbers := ns },
   { h with number := generateNumberString ns h.level })

/-- `NumberingManager._reset_figure_numbers_if_needed`: when a level-1
heading is processed, zero the figure and table counters. -/
def resetFigureNumbersIfNeeded (state : NumberState) (level : Nat) :
    NumberState :=
  if level = 1 then { state with figure_count := 0, table_count := 0 }
  else state

/-- One iteration of the `process_headings` loop: excluded headings are
skipped (`continue`), otherwise the chapter number is assigned and the
figure counters are reset at level 1. -/
def processHeading (state : NumberState) (h : Heading) :
    NumberState × Heading :=
  if h.is_excluded then (state, h)
  else
    let (s, h2) := assignChapterNumber state h
    (resetFigureNumbersIfNeeded s h2.level, h2)

/-- `NumberingManager.process_headings`: fold `processHeading` over the
heading list in document order, returning the final state and the updated
headings. -/
def processHeadings (state : NumberState) :
    List Heading → NumberState × List Heading
  | [] => (state, [])
  | h :: hs =>
    let (s, h2) := processHeading state h
    let (s2, rest) := processHeadings s hs
    (s2, h2 :: rest)

/-- The `while` loop at the head of the figure-assignment loop
(`FigureProcessor.assign_numbers` / the figure loop of
`MarkchapCore.process_file`):
`while current_heading_index < len(headings) - 1 and
headings[current_heading_index + 1].line_number <= figure.line_number:
current_heading_index += 1`. -/
def advanceHeadingIndexFuel (headings : List Heading) (line : Nat) :
    Nat → Nat → Nat
  | 0, idx => idx
  | fuel + 1, idx =>
    if h : idx + 1 < headings.length then
      if (headings[idx + 1]).line_number ≤ line then
        advanceHeadingIndexFuel headings line fuel (idx + 1)
      else idx
    else idx

/-- The while loop, entered with enough fuel for every possible iteration:
each iteration increments `idx` while keeping `idx + 1 < headings.length`,
so at most `headings.length` iterations can ever run and the fuel is never
exhausted before the loop condition fails. -/
def advanceHeadingIndex (headings : List Heading) (line : Nat) (idx : Nat) :
    Nat :=
  advanceHeadingIndexFuel headings line headings.length idx

/-- The `current_chapter` computation of the figure loop:
`current_chapter = "1"; if idx < len(headings): current_chapter =
headings[idx].number or "1"` (Python's `or` replaces the falsy empty string
by `"1"`). -/
def currentChapterFor (headings : List Heading) (idx : Nat) : String :=
  if h : idx < headings.length then
    if (headings[idx]).number = "" then "1" else (headings[idx]).number
  else "1"

/-- One iteration of the figure-assignment loop: advance the heading index,
take that heading's number (`or "1"` — the empty string falls back to
`"1"`, as does an out-of-range index), then increment the per-kind counter
and stamp the figure.  A figure whose `type` is neither `"figure"` nor
`"table"` falls through the `if/elif`: its `figure_number` is left
untouched while `chapter_number` is still assigned. -/
def assignFigureNumber (headings : List Heading) (state : NumberState)
    (idx : Nat) (fig : Figure) : NumberState × Nat × Figure :=
  let idx2 := advanceHeadingIndex headings fig.line_number idx
  let currentChapter := currentChapterFor headings idx2
  if fig.type = "figure" then
    ({ state with figure_count := state.figure_count + 1 }, idx2,
     { fig with figure_number := state.figure_count + 1,
                chapter_number := currentChapter })
  else if fig.type = "table" then
    ({ state with table_count := state.table_count + 1 }, idx2,
     { fig with figure_number := state.table_count + 1,
                chapter_number := currentChapter })
  else
    (state, idx2, { fig with chapter_number := currentChapter })

/-- The loop of `FigureProcessor.assign_numbers` (identical to the figure
loop inlined in `MarkchapCore.process_file` of the original file), starting
from a given heading index. -/
def assignNumbersAux (headings : List Heading) (state : NumberState)
    (idx : Nat) : List Figure → NumberState × List Figure
  | [] => (state, [])
  | f :: fs =>
    let (s, i, f2) := assignFigureNumber headings state idx f
    let (s2, rest) := assignNumbersAux headings s i fs
    (s2, f2 :: rest)

/-- `FigureProcessor.assign_numbers(figures, headings, state)`: walk the
figures in document order with `current_heading_index` starting at 0. -/
def assign_numbers (figures : List Figure) (headings : List Heading)
    (state : NumberState) : NumberState × List Figure :=
  assignNumbersAux headings state 0 figures

/-- The numbering core of `MarkchapCore.process_file` for one document:
first `process_headings`, then `assign_numbers` on the resulting numbered
headings, threading the single shared `NumberState`. -/
def processFileCore (state : NumberState) (headings : List Heading)
    (figures : List Figure) : NumberState × List Heading × List Figure :=
  let (s1, hs) := processHeadings state headings
  let (s2, fs) := assign_numbers figures hs s1
  (s2, hs, fs)

/-- The per-file loop of `MarkchapCore.process_directory`: `self.numbering`
is created once in `MarkchapCore.__init__`, so the one `NumberState` is
threaded through all documents of the batch without reinitialization. -/
def processDirectory (state : NumberState) :
    List (List Heading × List Figure) →
      NumberState × List (List Heading × List Figure)
  | [] => (state, [])
  | d :: ds =>
    let (s1, hs, fs) := processFileCore state d.1 d.2
    let (s2, rest) := processDirectory s1 ds
    (s2, (hs, fs) :: rest)

/-- `Heading.__post_init__` of `markchap_refactored.py`: constructing a
`Heading` raises `ValidationError` when `level < 1 or level > 6`, before
any numbering takes place.  The Python `int` argument is embedded as `Int`;
on success the record stores the (then non-negative) level. -/
def mkHeading (level : Int) (text raw_text : String)
    (token_index line_number : Nat) (is_excluded : Bool) :
    Except String Heading :=
  if level < 1 ∨ level > 6 then
    Except.error "ValidationError: heading level must be between 1 and 6"
  else
    Except.ok { level := level.toNat, text := text, raw_text := raw_text,
                token_index := token_index, line_number := line_number,
                is_excluded := is_excluded, number := "" }

/-- Scenario A input: the heading sequence H1, H2, H2, H1 with no
exclusions (`Ch1`, `Sec1`, `Sec2`, `Ch2`). -/
def scenarioA : List Heading :=
  [ { level := 1, text := "Ch1", raw_text := "Ch1", token_index := 0,
      line_number := 0, is_excluded := false, number := "" },
    { level := 2, text := "Sec1", raw_text := "Sec1", token_index := 3,
      line_number := 2, is_excluded := false, number := "" },
    { level := 2, text := "Sec2", raw_text := "Sec2", token_index := 6,
      line_number := 4, is_excluded := false, number := "" },
    { level := 1, text := "Ch2", raw_text := "Ch2", token_index := 9,
      line_number := 6, is_excluded := false, number := "" } ]

/-- An excluded level-1 heading with text "Introduction". -/
def exIntro : Heading :=
  { level := 1, text := "Introduction", raw_text := "Introduction",
    token_index := 0, line_number := 0, is_excluded := true, number := "" }

/-- A non-excluded level-1 heading. -/
def chOne : Heading :=
  { level := 1, text := "Chapter One", raw_text := "Chapter One",
    token_index := 3, line_number := 2, is_excluded := false, number := "" }

/-- A document with one chapter and two sections: H1 (line 0), H2 (line 2),
H2 (line 4); numbered "1", "1.1", "1.2". -/
def twoSectionHeadings : List Heading :=
  [ { level := 1, text := "Ch", raw_text := "Ch", token_index := 0,
      line_number := 0, is_excluded := false, number := "" },
    { level := 2, text := "SecA", raw_text := "SecA", token_index := 3,
      line_number := 2, is_excluded := false, number := "" },
    { level := 2, text := "SecB", raw_text := "SecB", token_index := 6,
      line_number := 4, is_excluded := false, number := "" } ]

/-- An image figure on line 3 (inside the first section). -/
def figA : Figure :=
  { type := "figure", original_text := "", caption := "cap", token_index := 4,
    line_number := 3, chapter_number := "", figure_number := 0 }

/-- An image figure on line 5 (inside the second section), with the same
caption as `figA`. -/
def figB : Figure :=
  { type := "figure", original_text := "", caption := "cap", token_index := 7,
    line_number := 5, chapter_number := "", figure_number := 0 }

/-- A document with headings H1 (line 0, "1"), H2 (line 2, "1.1"),
H3 (line 4, "1.1.1"). -/
def threeLevelHeadings : List Heading :=
  [ { level := 1, text := "Ch", raw_text := "Ch", token_index := 0,
      line_number := 0, is_excluded := false, number := "" },
    { level := 2, text := "Sec", raw_text := "Sec", token_index := 3,
      line_number := 2, is_excluded := false, number := "" },
    { level := 3, text := "Sub", raw_text := "Sub", token_index := 6,
      line_number := 4, is_excluded := false, number := "" } ]

/-- An image figure on line 6, after the level-3 heading. -/
def figC : Figure :=
  { type := "figure", original_text := "", caption := "cap", token_index := 7,
    line_number := 6, chapter_number := "", figure_number := 0 }

/-- A single non-excluded level-1 heading, used as a one-heading document. -/
def soloH1 : Heading :=
  { level := 1, text := "Chapter", raw_text := "Chapter", token_index := 0,
    line_number := 0, is_excluded := false, number := "" }

/-- A level-1 heading followed directly by a level-3 heading (a jump by two
levels), both non-excluded. -/
def jumpH1 : Heading :=
  { level := 1, text := "Ch", raw_text := "Ch", token_index := 0,
    line_number := 0, is_excluded := false, number := "" }

/-- The level-3 heading of the jump example. -/
def jumpH3 : Heading :=
  { level := 3, text := "Deep", raw_text := "Deep", token_index := 3,
    line_number := 2, is_excluded := false, number := "" }

/-- The number of dot-separated components of a dotted-number string: one
more than the number of `'.'` separator characters it contains (so e.g.
"1.2.1" has 3 components and "1.1" has 2). -/
def numComponents (s : String) : Nat :=
  s.data.count '.' + 1

/-- The spec's pairing invariant on a figure record: `scopeNumber`
(`chapter_number`, unset = `""`) and `sequenceInScope` (`figure_number`,
unset = `0`) are both unset or both set. -/
def bothOrNeither (f : Figure) : Prop :=
  f.chapter_number = "" ↔ f.figure_number = 0

/-- A figure record whose kind is neither "figure" nor "table" (directly
constructible in `markchap.py`, whose `Figure` dataclass has no
validation). -/
def unknownFig : Figure :=
  { type := "unknown", original_text := "", caption := "cap",
    token_index := 0, line_number := 0, chapter_number := "",
    figure_number := 0 }

/-- The number of figures of kind `t` in a list. -/
def countKind (t : String) (fs : List Figure) : Nat :=
  (fs.filter (fun f => f.type == t)).length

/-- A table-kind figure on line 3 (same section as `figA`). -/
def tabA : Figure :=
  { type := "table", original_text := "", caption := "tab", token_index := 5,
    line_number := 3, chapter_number := "", figure_number := 0 }

/-- The no-jump condition on a level sequence: starting from a previous
depth, every level exceeds its predecessor by at most one. -/
def noJumps : Nat → List Nat → Bool
  | _, [] => true
  | prev, l :: ls => decide (l ≤ prev + 1) && noJumps l ls

/-- C1: processing the heading sequence H1, H2, H2, H1 with no exclusions
from empty counters assigns the dotted numbers "1", "1.1", "1.2", "2" in
that order. -/
theorem scenarioA_numbers :
    ((processHeadings initState scenarioA).2.map Heading.number)
      = ["1", "1.1", "1.2", "2"] := by
  decide

/-- C8: constructing a `Heading` succeeds if and only if the level lies in
the range 1 to 6; any level outside that range is rejected by the
validation in `Heading.__post_init__`, before any numbering takes place. -/
theorem mkHeading_ok_iff (level : Int) (t r : String) (ti ln : Nat)
    (ex : Bool) :
    (mkHeading level t r ti ln ex).isOk = true ↔ 1 ≤ level ∧ level ≤ 6 := by
  unfold mkHeading
  by_cases hc : level < 1 ∨ level > 6
  · rw [if_pos hc]
    constructor
    · intro h
      exact absurd h (by simp [Except.isOk, Except.toBool])
    · intro h
      exact absurd hc (by omega)
  · rw [if_neg hc]
    constructor
    · intro _
      omega
    · intro _
      rfl

/-- C6: an excluded heading is skipped entirely: processing it returns the
state and the heading unchanged (its `number` stays unset), and processing
a list that starts with an excluded heading yields the same final state and
the same numbering of the remaining headings as processing the list without
it. -/
theorem processHeadings_excluded_skip (s : NumberState) (h : Heading)
    (hs : List Heading) (hex : h.is_excluded = true) :
    processHeading s h = (s, h) ∧
    processHeadings s (h :: hs)
      = ((processHeadings s hs).1, h :: (processHeadings s hs).2) := by
  have h1 : processHeading s h = (s, h) := by
    unfold processHeading
    rw [hex]
    simp
  refine ⟨h1, ?_⟩
  show (let (s2, h2) := processHeading s h
        let (s3, rest) := processHeadings s2 hs
        (s3, h2 :: rest)) = _
  rw [h1]

/-- C6 witness: at the concrete input (`exIntro`, then `chOne`), the
excluded heading keeps its unset number and consumes no counter slot, and
the following level-1 heading is numbered "1". -/
theorem processHeadings_excluded_skip_witness :
    (processHeading initState exIntro = (initState, exIntro) ∧
      processHeadings initState (exIntro :: [chOne])
        = ((processHeadings initState [chOne]).1,
           exIntro :: (processHeadings initState [chOne]).2)) ∧
    (processHeadings initState [exIntro, chOne]).2.map Heading.number
      = ["", "1"] :=
  ⟨processHeadings_excluded_skip initState exIntro [chOne] rfl, by decide⟩

/-- C2: evaluation of the code at the failing input.  Two figures of the
same kind lying in two different scopes ("1.1" and "1.2") receive the
sequence numbers 1 and 2: the per-kind counter is document-global and is
not restarted at 1 in the second scope, contradicting the claimed per-scope
contiguous run (and Scenario D) as well as the repository's own tests. -/
theorem globalCounter_crosses_scopes :
    ((processFileCore initState twoSectionHeadings [figA, figB]).2.2.map
        (fun f => (f.chapter_number, f.figure_number)))
      = [("1.1", 1), ("1.2", 2)] := by
  decide

/-- C3: evaluation of the code at the failing input.  The figure after the
level-3 heading receives `scopeNumber = "1.1.1"`: the code takes the number
of the nearest preceding heading of ANY level, not of the last non-excluded
heading at the anchor level 2 (which would give "1.1" as the claim and the
repository's tests require). -/
theorem scope_uses_nearest_heading_any_level :
    ((processFileCore initState threeLevelHeadings [figC]).2.2.map
        Figure.chapter_number)
      = ["1.1.1"] := by
  decide

/-- C4 counterexample: in a batch of two documents each consisting of the
single level-1 heading `soloH1`, the `NumberState` entering the second
document's pass is the first document's final state (counters `[1]`, not
the empty list the claim requires), and the second document's heading is
therefore numbered "2" instead of "1": numbering state persists across
files. -/
theorem state_persists_across_documents_cx :
    (processFileCore initState [soloH1] []).1.current_numbers ≠ [] ∧
    ((processDirectory initState [([soloH1], []), ([soloH1], [])]).2.map
        (fun d => d.1.map Heading.number))
      = [["1"], ["2"]] := by
  decide

/-- C5 counterexample: in the exclusion-free sequence H1, H3 the level-3
heading is assigned the number "1.1", which has 2 dot-separated components,
not 3: the zero counter of the skipped level 2 is omitted from the join, so
the component count does not equal the level when levels jump. -/
theorem jump_components_mismatch :
    ((processHeadings initState [jumpH1, jumpH3]).2.map Heading.number)
      = ["1", "1.1"] ∧
    ¬ (numComponents "1.1" = jumpH3.level) := by
  constructor
  · decide
  · decide

/-- C7 counterexample: running `assign_numbers` on a figure of unknown kind
sets its `chapter_number` to "1" but leaves `figure_number` at the unset
value 0 — no default sequence is assigned, and the both-unset-or-both-set
invariant is violated. -/
theorem unknown_kind_breaks_pairing :
    ((assign_numbers [unknownFig] [] initState).2.map
        (fun f => (f.chapter_number, f.figure_number))) = [("1", 0)] ∧
    ¬ bothOrNeither ((assign_numbers [unknownFig] [] initState).2.getD 0
        unknownFig) := by
  constructor
  · decide
  · intro hinv
    have h1 : ((assign_numbers [unknownFig] [] initState).2.getD 0
        unknownFig).chapter_number = "1" := by decide
    have h2 : ((assign_numbers [unknownFig] [] initState).2.getD 0
        unknownFig).figure_number = 0 := by decide
    have := hinv.mpr h2
    rw [h1] at this
    exact absurd this (by decide)

/-- `getD` after `set` at the same (in-range) index returns the new value. -/
theorem getD_set_self : ∀ (xs : List Nat) (i v : Nat), i < xs.length →
    (xs.set i v).getD i 0 = v
  | _ :: _, 0, _, _ => rfl
  | x :: xs, i + 1, v, h => by
    simpa using getD_set_self xs i v (by simpa using h)
  | [], _, _, h => absurd h (by simp)

/-- Adjusting the counters list to a level always yields a list of length
exactly that level (zero-extension and truncation both land on `level`). -/
theorem adjustNumberList_length (ns : List Nat) (l : Nat) :
    (adjustNumberList ns l).length = l := by
  unfold adjustNumberList
  split
  · rename_i hlt
    simp only [List.length_append, List.length_replicate]
    omega
  · split
    · rename_i hq hgt
      simp only [List.length_take]
      omega
    · rename_i hq hgt
      omega

/-- Resetting the entries at index `≥ l` of a list of length `l` is the
identity. -/
theorem resetDeeperLevels_of_length_eq (ns : List Nat) (l : Nat)
    (hlen : ns.length = l) : resetDeeperLevels ns l = ns := by
  unfold resetDeeperLevels
  rw [← hlen]
  simp

/-- `assignChapterNumber` leaves the counters list with length exactly the
heading's level, the entry at `level - 1` being at least 1. -/
theorem assignChapterNumber_counters (s : NumberState) (h : Heading)
    (hl : 1 ≤ h.level) :
    (assignChapterNumber s h).1.current_numbers.length = h.level ∧
    1 ≤ (assignChapterNumber s h).1.current_numbers.getD (h.level - 1) 0 := by
  unfold assignChapterNumber
  simp only
  have hlen1 : (adjustNumberList s.current_numbers h.level).length = h.level :=
    adjustNumberList_length _ _
  set ns1 := adjustNumberList s.current_numbers h.level with hns1
  set ns2 := ns1.set (h.level - 1) (ns1.getD (h.level - 1) 0 + 1) with hns2
  have hlen2 : ns2.length = h.level := by
    rw [hns2, List.length_set, hlen1]
  have hreset : resetDeeperLevels ns2 h.level = ns2 :=
    resetDeeperLevels_of_length_eq ns2 h.level hlen2
  rw [hreset]
  refine ⟨hlen2, ?_⟩
  rw [hns2, getD_set_self]
  · omega
  · rw [hlen1]
    omega

/-- Resetting the figure/table counters does not touch the counters list. -/
theorem resetFigureNumbersIfNeeded_current_numbers (s : NumberState)
    (l : Nat) :
    (resetFigureNumbersIfNeeded s l).current_numbers = s.current_numbers := by
  unfold resetFigureNumbersIfNeeded
  split <;> rfl

/-- One non-excluded heading step: afterwards the counters list has length
exactly the heading's level and its entry at `level - 1` is at least 1. -/
theorem processHeading_counters (s : NumberState) (h : Heading)
    (hex : h.is_excluded = false) (hl : 1 ≤ h.level) :
    (processHeading s h).1.current_numbers.length = h.level ∧
    1 ≤ (processHeading s h).1.current_numbers.getD (h.level - 1) 0 := by
  unfold processHeading
  rw [hex]
  simp only [Bool.false_eq_true, if_false]
  show ((resetFigureNumbersIfNeeded (assignChapterNumber s h).1
      (assignChapterNumber s h).2.level).current_numbers.length = h.level) ∧ _
  rw [resetFigureNumbersIfNeeded_current_numbers]
  exact assignChapterNumber_counters s h hl

/-- `process_headings` over a concatenation threads the state through the
first part and into the second. -/
theorem processHeadings_append (s : NumberState) (l1 l2 : List Heading) :
    processHeadings s (l1 ++ l2)
      = ((processHeadings (processHeadings s l1).1 l2).1,
         (processHeadings s l1).2
           ++ (processHeadings (processHeadings s l1).1 l2).2) := by
  induction l1 generalizing s with
  | nil => rfl
  | cons h t ih =>
    show ((processHeadings (processHeading s h).1 (t ++ l2)).1,
          (processHeading s h).2
            :: (processHeadings (processHeading s h).1 (t ++ l2)).2) = _
    rw [ih]
    rfl

/-- C10: throughout a numbering pass, immediately after processing the
`i`-th heading of the input (provided it is non-excluded and of level
`L ≥ 1`), the counters list has length exactly `L` and its entry at
position `L - 1` is at least 1. -/
theorem counters_length_invariant (s : NumberState) (hs : List Heading)
    (i : Nat) (hi : i < hs.length) (hex : (hs[i]).is_excluded = false)
    (hl : 1 ≤ (hs[i]).level) :
    (processHeadings s (hs.take (i + 1))).1.current_numbers.length
        = (hs[i]).level ∧
    1 ≤ (processHeadings s (hs.take (i + 1))).1.current_numbers.getD
        ((hs[i]).level - 1) 0 := by
  have htake : hs.take (i + 1) = hs.take i ++ [hs[i]] := by
    rw [List.take_succ, List.getElem?_eq_getElem hi]
    rfl
  rw [htake, processHeadings_append]
  have hsingle : ∀ (s' : NumberState) (x : Heading),
      (processHeadings s' [x]).1 = (processHeading s' x).1 := fun _ _ => rfl
  rw [hsingle]
  exact processHeading_counters _ _ hex hl

/-- C10 witness: after the third heading (level 2) of the concrete
two-section document, the counters list has length 2 and its entry at
index 1 is at least 1. -/
theorem counters_length_invariant_witness :
    (processHeadings initState
        (twoSectionHeadings.take 3)).1.current_numbers.length = 2 ∧
    1 ≤ (processHeadings initState
        (twoSectionHeadings.take 3)).1.current_numbers.getD 1 0 :=
  counters_length_invariant initState twoSectionHeadings 2 (by decide)
    (by decide) (by decide)

/-- Unfolding of the figure loop on a cons cell. -/
theorem assignNumbersAux_cons (hs : List Heading) (s : NumberState)
    (idx : Nat) (f : Figure) (ft : List Figure) :
    assignNumbersAux hs s idx (f :: ft)
      = ((assignNumbersAux hs (assignFigureNumber hs s idx f).1
            (assignFigureNumber hs s idx f).2.1 ft).1,
         (assignFigureNumber hs s idx f).2.2
           :: (assignNumbersAux hs (assignFigureNumber hs s idx f).1
            (assignFigureNumber hs s idx f).2.1 ft).2) := rfl

/-- Over the whole figure loop, the figure-kind records receive the
consecutive sequence numbers `figure_count + 1, figure_count + 2, …` and
the table-kind records `table_count + 1, table_count + 2, …`, in list
order, regardless of any heading/scope boundaries. -/
theorem assignNumbersAux_kind_sequences (hs : List Heading) :
    ∀ (fs : List Figure) (s : NumberState) (idx : Nat),
      (∀ f ∈ fs, f.type = "figure" ∨ f.type = "table") →
      (((assignNumbersAux hs s idx fs).2.filter
          (fun f => f.type == "figure")).map Figure.figure_number
        = List.range' (s.figure_count + 1) (countKind "figure" fs)) ∧
      (((assignNumbersAux hs s idx fs).2.filter
          (fun f => f.type == "table")).map Figure.figure_number
        = List.range' (s.table_count + 1) (countKind "table" fs)) := by
  intro fs
  induction fs with
  | nil =>
    intro s idx _
    simp [assignNumbersAux, countKind]
  | cons f ft ih =>
    intro s idx hknown
    have htail : ∀ g ∈ ft, g.type = "figure" ∨ g.type = "table" :=
      fun g hg => hknown g (List.mem_cons_of_mem f hg)
    rcases hknown f (List.mem_cons_self f ft) with hf | hf
    · rw [assignNumbersAux_cons]
      have h1 : (assignFigureNumber hs s idx f).1
          = { s with figure_count := s.figure_count + 1 } := by
        unfold assignFigureNumber
        rw [hf]
        simp
      have h2 : (assignFigureNumber hs s idx f).2.2.type = "figure" := by
        unfold assignFigureNumber
        rw [hf]
        simp
      have h3 : (assignFigureNumber hs s idx f).2.2.figure_number
          = s.figure_count + 1 := by
        unfold assignFigureNumber
        rw [hf]
        simp
      obtain ⟨ih1, ih2⟩ := ih (assignFigureNumber hs s idx f).1
        (assignFigureNumber hs s idx f).2.1 htail
      rw [h1] at ih1 ih2
      have hck1 : countKind "figure" (f :: ft) = countKind "figure" ft + 1 := by
        simp [countKind, List.filter_cons, hf]
      have hck2 : countKind "table" (f :: ft) = countKind "table" ft := by
        simp [countKind, List.filter_cons, hf]
      constructor
      · rw [hck1, List.range'_succ, List.filter_cons]
        rw [show ((assignFigureNumber hs s idx f).2.2.type == "figure") = true
          from by rw [h2]; rfl]
        simp only [if_true, List.map_cons, h3]
        rw [h1, ih1]
      · rw [hck2, List.filter_cons]
        rw [show ((assignFigureNumber hs s idx f).2.2.type == "table") = false
          from by rw [h2]; rfl]
        simp only [Bool.false_eq_true, if_false]
        rw [h1, ih2]
    · rw [assignNumbersAux_cons]
      have h1 : (assignFigureNumber hs s idx f).1
          = { s with table_count := s.table_count + 1 } := by
        unfold assignFigureNumber
        rw [hf]
        simp
      have h2 : (assignFigureNumber hs s idx f).2.2.type = "table" := by
        unfold assignFigureNumber
        rw [hf]
        simp
      have h3 : (assignFigureNumber hs s idx f).2.2.figure_number
          = s.table_count + 1 := by
        unfold assignFigureNumber
        rw [hf]
        simp
      obtain ⟨ih1, ih2⟩ := ih (assignFigureNumber hs s idx f).1
        (assignFigureNumber hs s idx f).2.1 htail
      rw [h1] at ih1 ih2
      have hck1 : countKind "figure" (f :: ft) = countKind "figure" ft := by
        simp [countKind, List.filter_cons, hf]
      have hck2 : countKind "table" (f :: ft) = countKind "table" ft + 1 := by
        simp [countKind, List.filter_cons, hf]
      constructor
      · rw [hck1, List.filter_cons]
        rw [show ((assignFigureNumber hs s idx f).2.2.type == "figure") = false
          from by rw [h2]; rfl]
        simp only [Bool.false_eq_true, if_false]
        rw [h1, ih1]
      · rw [hck2, List.range'_succ, List.filter_cons]
        rw [show ((assignFigureNumber hs s idx f).2.2.type == "table") = true
          from by rw [h2]; rfl]
        simp only [if_true, List.map_cons, h3]
        rw [h1, ih2]

/-- C9: starting `assign_numbers` with both per-kind counters at 0, the
figure-kind records receive the sequence numbers 1, 2, …, in list order,
and the table-kind records independently receive 1, 2, …: the counters are
document-global, incremented once per figure of their kind and never reset
at any scope boundary. -/
theorem figure_numbers_are_global_per_kind (figures : List Figure)
    (headings : List Heading) (s : NumberState)
    (hknown : ∀ f ∈ figures, f.type = "figure" ∨ f.type = "table")
    (hfc : s.figure_count = 0) (htc : s.table_count = 0) :
    (((assign_numbers figures headings s).2.filter
        (fun f => f.type == "figure")).map Figure.figure_number
      = List.range' 1 (countKind "figure" figures)) ∧
    (((assign_numbers figures headings s).2.filter
        (fun f => f.type == "table")).map Figure.figure_number
      = List.range' 1 (countKind "table" figures)) := by
  have h := assignNumbersAux_kind_sequences headings figures s 0 hknown
  rw [hfc, htc] at h
  simpa [assign_numbers] using h

/-- C9 witness: on the concrete mixed list `[figA, tabA, figB]` the
figure-kind records are numbered 1, 2 and the table-kind record 1. -/
theorem figure_numbers_are_global_per_kind_witness :
    (((assign_numbers [figA, tabA, figB] twoSectionHeadings
          initState).2.filter
        (fun f => f.type == "figure")).map Figure.figure_number
      = List.range' 1 (countKind "figure" [figA, tabA, figB])) ∧
    (((assign_numbers [figA, tabA, figB] twoSectionHeadings
          initState).2.filter
        (fun f => f.type == "table")).map Figure.figure_number
      = List.range' 1 (countKind "table" [figA, tabA, figB])) :=
  figure_numbers_are_global_per_kind [figA, tabA, figB] twoSectionHeadings
    initState (by decide) rfl rfl

/-- The `current_chapter` string is never empty: it is either `"1"` or a
heading's non-empty number. -/
theorem currentChapterFor_ne_empty (hs : List Heading) (idx : Nat) :
    currentChapterFor hs idx ≠ "" := by
  unfold currentChapterFor
  split
  · split
    · simp
    · assumption
  · simp

/-- The figure record produced by one figure-loop iteration always carries
the `current_chapter` value in `chapter_number`. -/
theorem assignFigureNumber_chapter (hs : List Heading) (s : NumberState)
    (idx : Nat) (f : Figure) :
    (assignFigureNumber hs s idx f).2.2.chapter_number
      = currentChapterFor hs (advanceHeadingIndex hs f.line_number idx) := by
  simp only [assignFigureNumber]
  split
  · rfl
  · split
    · rfl
    · rfl

/-- A figure of a known kind receives a positive sequence number (the
post-increment counter value). -/
theorem assignFigureNumber_fignum_pos (hs : List Heading) (s : NumberState)
    (idx : Nat) (f : Figure)
    (hknown : f.type = "figure" ∨ f.type = "table") :
    1 ≤ (assignFigureNumber hs s idx f).2.2.figure_number := by
  simp only [assignFigureNumber]
  rcases hknown with hf | hf <;> rw [hf] <;> simp

/-- Every record coming out of the figure loop on known-kind inputs has a
non-empty scope number and a positive sequence number. -/
theorem assignNumbersAux_both_set (hs : List Heading) :
    ∀ (fs : List Figure) (s : NumberState) (idx : Nat),
      (∀ f ∈ fs, f.type = "figure" ∨ f.type = "table") →
      ∀ f' ∈ (assignNumbersAux hs s idx fs).2,
        f'.chapter_number ≠ "" ∧ 1 ≤ f'.figure_number := by
  intro fs
  induction fs with
  | nil =>
    intro s idx _ f' hf'
    simp [assignNumbersAux] at hf'
  | cons f ft ih =>
    intro s idx hknown f' hf'
    rw [assignNumbersAux_cons] at hf'
    rcases List.mem_cons.mp hf' with rfl | hmem
    · refine ⟨?_, ?_⟩
      · rw [assignFigureNumber_chapter]
        exact currentChapterFor_ne_empty _ _
      · exact assignFigureNumber_fignum_pos hs s idx f
          (hknown f (List.mem_cons_self f ft))
    · exact ih (assignFigureNumber hs s idx f).1
        (assignFigureNumber hs s idx f).2.1
        (fun g hg => hknown g (List.mem_cons_of_mem f hg)) f' hmem

/-- C7 (amended): for every figure list whose records all have kind
"figure" or "table", every record after `assign_numbers` has its scope
number set (non-empty) and its sequence number set (at least 1), so the
both-unset/both-set pairing invariant holds for figures of the two known
kinds; an unknown-kind record instead gets its scope set with its sequence
left unset. -/
theorem known_kinds_both_set (figures : List Figure)
    (headings : List Heading) (s : NumberState)
    (hknown : ∀ f ∈ figures, f.type = "figure" ∨ f.type = "table") :
    ∀ f' ∈ (assign_numbers figures headings s).2,
      f'.chapter_number ≠ "" ∧ 1 ≤ f'.figure_number :=
  assignNumbersAux_both_set headings figures s 0 hknown

/-- C7 witness: on the concrete input `[figA, tabA]` the first output
record has a non-empty scope number and a positive sequence number. -/
theorem known_kinds_both_set_witness :
    ((assign_numbers [figA, tabA] twoSectionHeadings
        initState).2.getD 0 figA).chapter_number ≠ "" ∧
    1 ≤ ((assign_numbers [figA, tabA] twoSectionHeadings
        initState).2.getD 0 figA).figure_number :=
  known_kinds_both_set [figA, tabA] twoSectionHeadings initState (by decide)
    _ (by decide)

/-- C4 (amended): the numbering state carried into a document is whatever
the previous documents left behind; a document whose single heading is
non-excluded at level 1, processed from carried counters `[n]`, numbers
that heading `n + 1` (not 1) and leaves the counters at `[n + 1]`. -/
theorem carried_counters_continue_numbering (s : NumberState) (n : Nat)
    (h : Heading) (hex : h.is_excluded = false) (hl : h.level = 1)
    (hc : s.current_numbers = [n]) :
    ((processHeadings s [h]).2.map Heading.number) = [Nat.repr (n + 1)] ∧
    (processHeadings s [h]).1.current_numbers = [n + 1] := by
  show ([(processHeading s h).2.number] = _) ∧
    (processHeading s h).1.current_numbers = _
  unfold processHeading
  rw [hex]
  simp only [Bool.false_eq_true, if_false]
  show ([(assignChapterNumber s h).2.number] = _) ∧
    (resetFigureNumbersIfNeeded (assignChapterNumber s h).1
      (assignChapterNumber s h).2.level).current_numbers = _
  rw [resetFigureNumbersIfNeeded_current_numbers]
  unfold assignChapterNumber adjustNumberList resetDeeperLevels
    generateNumberString
  rw [hc, hl]
  simp [joinDot]

/-- C4 witness: the state left by a first single-`soloH1` document has
counters `[1]`; processing a second identical document from it numbers its
heading "2" and leaves the counters at `[2]`. -/
theorem carried_counters_continue_numbering_witness :
    ((processHeadings (processFileCore initState [soloH1] []).1
        [soloH1]).2.map Heading.number) = [Nat.repr 2] ∧
    (processHeadings (processFileCore initState [soloH1] []).1
        [soloH1]).1.current_numbers = [2] :=
  carried_counters_continue_numbering
    (processFileCore initState [soloH1] []).1 1 soloH1 rfl rfl (by decide)

/-- The decimal digit characters never include the dot separator. -/
theorem digitChar_ne_dot (m : Nat) : Nat.digitChar m ≠ '.' := by
  rcases Nat.lt_or_ge m 16 with hm | hm
  · interval_cases m <;> decide
  · unfold Nat.digitChar
    repeat rw [if_neg (by omega)]
    decide

/-- `Nat.toDigitsCore` only ever prepends digit characters, so it preserves
dot-freeness of the accumulator. -/
theorem toDigitsCore_ne_dot :
    ∀ (fuel n : Nat) (ds : List Char), '.' ∉ ds →
      '.' ∉ Nat.toDigitsCore 10 fuel n ds := by
  intro fuel
  induction fuel with
  | zero =>
    intro n ds h
    simpa [Nat.toDigitsCore] using h
  | succ fuel ih =>
    intro n ds h
    have hd : '.' ∉ (Nat.digitChar (n % 10)) :: ds := by
      intro hmem
      rcases List.mem_cons.mp hmem with heq | hmem2
      · exact digitChar_ne_dot (n % 10) heq.symm
      · exact h hmem2
    simp only [Nat.toDigitsCore]
    split
    · exact hd
    · exact ih (n / 10) _ hd

/-- The decimal rendering of a natural number contains no dot. -/
theorem repr_ne_dot (n : Nat) : '.' ∉ (Nat.repr n).data :=
  toDigitsCore_ne_dot (n + 1) n [] (by simp)

/-- Joining dot-free parts with "." yields a string with exactly
`parts.length` dot-separated components. -/
theorem numComponents_joinDot :
    ∀ (l : List String), (∀ p ∈ l, '.' ∉ p.data) → l ≠ [] →
      numComponents (joinDot l) = l.length
  | [], _, hne => absurd rfl hne
  | [x], h, _ => by
    unfold numComponents joinDot
    rw [List.count_eq_zero_of_not_mem (h x (List.mem_singleton.mpr rfl))]
    rfl
  | x :: y :: ys, h, _ => by
    have hx : '.' ∉ x.data := h x (List.mem_cons_self _ _)
    have ih := numComponents_joinDot (y :: ys)
      (fun p hp => h p (List.mem_cons_of_mem x hp)) (by simp)
    have hcnt : (x ++ "." ++ joinDot (y :: ys)).data.count '.'
        = (joinDot (y :: ys)).data.count '.' + 1 := by
      rw [String.data_append, String.data_append,
        show (".").data = ['.'] from rfl, List.count_append,
        List.count_append, List.count_eq_zero_of_not_mem hx,
        show List.count '.' ['.'] = 1 from rfl]
      omega
    unfold numComponents at ih ⊢
    rw [show joinDot (x :: y :: ys) = x ++ "." ++ joinDot (y :: ys) from rfl,
      hcnt]
    simp only [List.length_cons] at ih ⊢
    omega

/-- `getD` of an appended last element at its own index. -/
theorem getD_append_last : ∀ (xs : List Nat) (a : Nat),
    (xs ++ [a]).getD xs.length 0 = a
  | [], _ => rfl
  | x :: xs, a => by simp [getD_append_last xs a]

/-- `set` of an appended last element at its own index. -/
theorem set_append_last : ∀ (xs : List Nat) (a b : Nat),
    (xs ++ [a]).set xs.length b = xs ++ [b]
  | [], _, _ => rfl
  | x :: xs, a, b => by simp [set_append_last xs a b]

/-- The adjusted-and-incremented counters list stays all-positive and has
length exactly the level, provided the level does not jump past the
current length plus one. -/
theorem adjustedSet_pos (cn : List Nat) (l : Nat)
    (hle : l ≤ cn.length + 1) (hpos : ∀ x ∈ cn, 1 ≤ x) :
    (∀ x ∈ (adjustNumberList cn l).set (l - 1)
        ((adjustNumberList cn l).getD (l - 1) 0 + 1), 1 ≤ x) ∧
    ((adjustNumberList cn l).set (l - 1)
        ((adjustNumberList cn l).getD (l - 1) 0 + 1)).length = l := by
  by_cases hcase : cn.length < l
  · have hleq : l = cn.length + 1 := by omega
    have hadj : adjustNumberList cn l = cn ++ [0] := by
      unfold adjustNumberList
      rw [if_pos hcase, hleq]
      simp
    rw [hadj]
    have hgetD : (cn ++ [0]).getD (l - 1) 0 = 0 := by
      rw [hleq]
      simp [getD_append_last cn 0]
    rw [hgetD]
    have hset : (cn ++ [0]).set (l - 1) (0 + 1) = cn ++ [1] := by
      rw [hleq]
      simp [set_append_last cn 0 1]
    rw [hset]
    constructor
    · intro x hx
      rcases List.mem_append.mp hx with hx | hx
      · exact hpos x hx
      · simp at hx
        omega
    · simp
      omega
  · have hadj : adjustNumberList cn l = cn.take l := by
      unfold adjustNumberList
      rw [if_neg hcase]
      by_cases hgt : cn.length > l
      · rw [if_pos hgt]
      · rw [if_neg hgt]
        have hleq : cn.length = l := by omega
        rw [← hleq, List.take_length]
    rw [hadj]
    constructor
    · intro x hx
      rcases List.mem_or_eq_of_mem_set hx with hx | rfl
      · exact hpos x (List.mem_of_mem_take hx)
      · omega
    · rw [List.length_set, List.length_take]
      omega

/-- On an all-positive counters list of length exactly the level, the
rendered number string is the plain dot-join of all the counters (no zero
entry is dropped). -/
theorem generateNumberString_of_pos (ns : List Nat) (l : Nat)
    (hlen : ns.length = l) (hpos : ∀ x ∈ ns, 1 ≤ x) :
    generateNumberString ns l = joinDot (ns.map Nat.repr) := by
  unfold generateNumberString
  rw [← hlen, List.take_length]
  have hfil : ns.filter (fun n => 0 < n) = ns :=
    List.filter_eq_self.mpr (fun a ha => by simpa using hpos a ha)
  rw [hfil]

/-- One non-excluded step from an all-positive counters list whose length
is not jumped past: the counters stay all-positive with length exactly the
heading's level, and the assigned number has exactly `level` components. -/
theorem processHeading_pos (s : NumberState) (h : Heading)
    (hex : h.is_excluded = false) (hl : 1 ≤ h.level)
    (hle : h.level ≤ s.current_numbers.length + 1)
    (hpos : ∀ x ∈ s.current_numbers, 1 ≤ x) :
    (∀ x ∈ (processHeading s h).1.current_numbers, 1 ≤ x) ∧
    (processHeading s h).1.current_numbers.length = h.level ∧
    numComponents (processHeading s h).2.number = h.level := by
  obtain ⟨hp2, hl2⟩ := adjustedSet_pos s.current_numbers h.level hle hpos
  unfold processHeading
  rw [hex]
  simp only [Bool.false_eq_true, if_false]
  show (∀ x ∈ (resetFigureNumbersIfNeeded (assignChapterNumber s h).1
      (assignChapterNumber s h).2.level).current_numbers, 1 ≤ x) ∧
    (resetFigureNumbersIfNeeded (assignChapterNumber s h).1
      (assignChapterNumber s h).2.level).current_numbers.length = h.level ∧
    numComponents (assignChapterNumber s h).2.number = h.level
  rw [resetFigureNumbersIfNeeded_current_numbers]
  have hcn : (assignChapterNumber s h).1.current_numbers
      = (adjustNumberList s.current_numbers h.level).set (h.level - 1)
        ((adjustNumberList s.current_numbers h.level).getD (h.level - 1) 0
          + 1) := by
    unfold assignChapterNumber
    simp only
    exact resetDeeperLevels_of_length_eq _ _ hl2
  have hnum : (assignChapterNumber s h).2.number
      = generateNumberString
        ((adjustNumberList s.current_numbers h.level).set (h.level - 1)
          ((adjustNumberList s.current_numbers h.level).getD (h.level - 1) 0
            + 1)) h.level := by
    unfold assignChapterNumber
    simp only
    rw [resetDeeperLevels_of_length_eq _ _ hl2]
  rw [hcn, hnum]
  refine ⟨hp2, hl2, ?_⟩
  rw [generateNumberString_of_pos _ h.level hl2 hp2]
  rw [numComponents_joinDot]
  · rw [List.length_map]
    exact hl2
  · intro p hp
    rcases List.mem_map.mp hp with ⟨m, _, rfl⟩
    exact repr_ne_dot m
  · intro hemp
    rw [List.map_eq_nil_iff] at hemp
    rw [hemp] at hl2
    simp at hl2
    omega

/-- Over a whole no-jump, exclusion-free heading list starting from an
all-positive counters list, every assigned number has exactly as many
components as its heading's level. -/
theorem processHeadings_components_aux :
    ∀ (hs : List Heading) (s : NumberState),
      (∀ x ∈ s.current_numbers, 1 ≤ x) →
      (∀ h ∈ hs, h.is_excluded = false) →
      (∀ h ∈ hs, 1 ≤ h.level) →
      noJumps s.current_numbers.length (hs.map Heading.level) = true →
      ∀ h' ∈ (processHeadings s hs).2, numComponents h'.number = h'.level
  | [], s, _, _, _, _ => by
    intro h' hh'
    simp [processHeadings] at hh'
  | h :: hs, s, hpos, hex, hl, hnj => by
    have hx : h.is_excluded = false := hex h (List.mem_cons_self h hs)
    have hxl : 1 ≤ h.level := hl h (List.mem_cons_self h hs)
    simp only [List.map_cons, noJumps, Bool.and_eq_true,
      decide_eq_true_eq] at hnj
    obtain ⟨hnj1, hnjrest⟩ := hnj
    obtain ⟨hp2, hl2, hcomp⟩ := processHeading_pos s h hx hxl hnj1 hpos
    intro h' hh'
    rw [show (processHeadings s (h :: hs)).2
        = (processHeading s h).2
          :: (processHeadings (processHeading s h).1 hs).2 from rfl] at hh'
    rcases List.mem_cons.mp hh' with rfl | hmem
    · have hlev : (processHeading s h).2.level = h.level := by
        unfold processHeading
        rw [hx]
        simp only [Bool.false_eq_true, if_false]
        rfl
      rw [hlev]
      exact hcomp
    · refine processHeadings_components_aux hs (processHeading s h).1 hp2
        (fun g hg => hex g (List.mem_cons_of_mem h hg))
        (fun g hg => hl g (List.mem_cons_of_mem h hg)) ?_ h' hmem
      rw [hl2]
      exact hnjrest

/-- C5 (amended): for every exclusion-free heading sequence whose levels
never jump (the first heading has level 1 and each later heading's level
exceeds its predecessor's by at most one), processing from empty counters
assigns every heading a number with exactly as many dot-separated
components as its level.  (With a jump, the zero counters of the skipped
intermediate levels are omitted from the join and the component count
falls short — see the counterexample.) -/
theorem components_eq_level_of_noJumps (hs : List Heading)
    (s : NumberState) (hinit : s.current_numbers = [])
    (hex : ∀ h ∈ hs, h.is_excluded = false)
    (hl : ∀ h ∈ hs, 1 ≤ h.level)
    (hnj : noJumps 0 (hs.map Heading.level) = true) :
    ∀ h' ∈ (processHeadings s hs).2, numComponents h'.number = h'.level := by
  apply processHeadings_components_aux hs s
  · rw [hinit]
    simp
  · exact hex
  · exact hl
  · rw [hinit]
    simpa using hnj

/-- C5 witness: in the concrete no-jump Scenario A sequence, the second
output heading (level 2, number "1.1") has exactly 2 components. -/
theorem components_eq_level_of_noJumps_witness :
    numComponents ((processHeadings initState scenarioA).2.getD 1
        jumpH1).number
      = ((processHeadings initState scenarioA).2.getD 1 jumpH1).level :=
  components_eq_level_of_noJumps scenarioA initState rfl (by decide)
    (by decide) (by decide) _ (by decide)

end Markchap
